import Mathlib

/-!
Verification development for the feature-service → feature-class exporter
(`rest_utilities.py` together with its thin CLI wrapper `fs_to_fc_tool.py`).

The Python source is shallowly embedded:
* JSON values become the inductive `Json`; Python dictionaries become
  association lists with first-match lookup (dict keys are unique, so the
  first match is the only match);
* the HTTP capability (`requests.get(url).json()`) becomes a function
  parameter of type `Http`; a network failure or a malformed JSON body is
  an `Except.error`;
* Python exceptions become `Except PyError`; a `for` loop whose body can
  raise becomes the structurally recursive `exMapM`, which stops at the
  first error exactly as exception propagation does;
* the proprietary `arcpy` collaborators (`AsShape`, `CreateFeatureclass`,
  `AddField`, `InsertCursor`) are external: a shape is modelled by the
  esri-JSON content handed to `AsShape`, and row insertion by the list of
  row value lists assembled for the cursor.
-/

/-- Kinds of Python exception the embedded code can raise: `KeyError` from a
dictionary index, `TypeError` from indexing or membership-testing a
non-dictionary, `ValueError` from `range` with a non-positive step, and the
decode error raised by `requests.Response.json()` on a malformed body (which
also stands for a failed HTTP request). -/
inductive PyError where
  | keyError
  | typeError
  | valueError
  | jsonDecodeError
deriving DecidableEq

/-- JSON values as delivered by `requests.get(url).json()`.  Numbers are
modelled by `Int`: the program never computes with a numeric payload, it
only copies values, so the exact numeric domain is irrelevant to every
claim proved below. -/
inductive Json where
  | jnull
  | jbool (b : Bool)
  | jnum (n : Int)
  | jstr (s : String)
  | jarr (elems : List Json)
  | jobj (entries : List (String × Json))

/-- Python dictionary lookup (`k in d` / `d.get(k)`): first entry with the
given key, if any. -/
def pyLookup (kvs : List (String × Json)) (k : String) : Option Json :=
  match kvs.find? (fun p => p.1 = k) with
  | some p => some p.2
  | none => none

/-- Python subscript `d[k]`: `KeyError` when the key is absent, `TypeError`
when the value is not a dictionary. -/
def pyGetItem (j : Json) (k : String) : Except PyError Json :=
  match j with
  | .jobj kvs =>
    match pyLookup kvs k with
    | some v => .ok v
    | none => .error .keyError
  | _ => .error .typeError

/-- A `for` loop that maps a fallible body over a list, aborting at the
first raised exception (Python exception propagation). -/
def exMapM {α β : Type} (f : α → Except PyError β) : List α → Except PyError (List β)
  | [] => .ok []
  | a :: rest =>
    match f a with
    | .error e => .error e
    | .ok b =>
      match exMapM f rest with
      | .error e => .error e
      | .ok bs => .ok (b :: bs)

/-- Whether a fallible computation succeeded. -/
def exIsOk {α : Type} : Except PyError α → Bool
  | .ok _ => true
  | .error _ => false

/-- The successful value of a fallible computation, if any. -/
def exToOption {α : Type} : Except PyError α → Option α
  | .ok a => some a
  | .error _ => none

/-- Whether the first list is an initial segment of the second
(character-by-character comparison). -/
def charsHead : List Char → List Char → Bool
  | [], _ => true
  | _ :: _, [] => false
  | a :: as, b :: bs => a = b && charsHead as bs

/-- Denotation of `re.match(r'^P.*', s)` for a literal pattern `P` followed
by `.*`: `re.match` anchors at the start of the string, and `.*` accepts any
remainder (including the empty one), so the regex matches exactly when `P`
is an initial segment of `s`.  Both patterns in the source (`^OBJECTID.*`
and `^Shape\..*`) have this shape, the escaped dot standing for a literal
dot. -/
def reMatchHead (pat s : String) : Bool := charsHead pat.data s.data

/-- Value of a hexadecimal digit, as used in URL percent-escapes
(character codes: digits 48-57, upper-case letters 65-70, lower-case
letters 97-102). -/
def hexVal (c : Char) : Option Nat :=
  let n := c.toNat
  if 48 ≤ n ∧ n ≤ 57 then some (n - 48)
  else if 65 ≤ n ∧ n ≤ 70 then some (n - 55)
  else if 97 ≤ n ∧ n ≤ 102 then some (n - 87)
  else none

/-- URL percent-decoding on character lists: `%XY` with hex digits `X`, `Y`
becomes the character with code `16*X + Y`. -/
def percentDecodeChars : List Char → List Char
  | [] => []
  | '%' :: a :: b :: rest =>
    match hexVal a, hexVal b with
    | some hi, some lo => Char.ofNat (16 * hi + lo) :: percentDecodeChars rest
    | _, _ => '%' :: percentDecodeChars (a :: b :: rest)
  | c :: rest => c :: percentDecodeChars rest

/-- URL percent-decoding on strings; used to relate the literal query value
`"1%3D1"` in the source to the logical filter `1=1`. -/
def percentDecode (s : String) : String := String.mk (percentDecodeChars s.data)

/-- The HTTP-and-parse capability `requests.get(url).json()`: from a full
URL to a parsed JSON body or an error. -/
abbrev Http := String → Except PyError Json

/-- `FeatureService._get_dict` (lines 21-31): append `?` and the query
string to the URL and fetch-and-parse the result. -/
def _get_dict (http : Http) (url query_string : String) : Except PyError Json :=
  http (url ++ "?" ++ query_string)

/-- `FeatureService._describe` (lines 33-39): metadata call `f=json` with no
other parameters against the base endpoint URL.  The raw parsed response is
returned as the service properties without any validation. -/
def _describe (http : Http) (url : String) : Except PyError Json :=
  _get_dict http url "f=json"

/-- `FeatureService.query` (lines 41-52): format each pair as `key=value`,
join with `&`, and call `<endpoint>/query` with the resulting query
string. -/
def query (http : Http) (url : String) (query_dict : List (String × String)) :
    Except PyError Json :=
  _get_dict http (url ++ "/query")
    (String.intercalate "&" (query_dict.map (fun p => p.1 ++ "=" ++ p.2)))

/-- `FeatureService.get_fid_list` (lines 54-67): query with
`where=1%3D1&returnIdsOnly=true&f=json` (the value `1%3D1` is the
URL-encoded form of `1=1`, as the source comment notes) and subscript the
response with `objectIds`. -/
def get_fid_list (http : Http) (url : String) : Except PyError Json :=
  match query http url [("where", "1%3D1"), ("returnIdsOnly", "true"), ("f", "json")] with
  | .error e => .error e
  | .ok json_dict => pyGetItem json_dict "objectIds"

/-- The `geometry_type` lookup dictionary of `_get_feature_list`
(lines 86-91): esri geometry type label → GeoJSON-style label.  `none`
models the `KeyError` a Python dictionary raises for any other key. -/
def geometry_type_fetch (s : String) : Option String :=
  if s = "esriGeometryPoint" then some "Point"
  else if s = "esriGeometryMultipoint" then some "MultiPoint"
  else if s = "esriGeometryPolyline" then some "MultiLineString"
  else if s = "esriGeometryPolygon" then some "Polygon"
  else none

/-- `get_geometry_json` (lines 97-109), the geometry-coordinate extraction.
The last guard in the source reads `elif 'x' and 'y' in
feature_geometry_dictionary`, which Python evaluates as
`'y' in feature_geometry_dictionary` because the non-empty literal `'x'` is
truthy; when the guard passes, line 109 evaluates
`feature_geometry_dictionary['x']` first, raising `KeyError` if `'x'` is
absent.  When no branch fires the function falls through and returns
`None`, modelled by `.ok none`. -/
def get_geometry_json (g : List (String × Json)) : Except PyError (Option Json) :=
  match pyLookup g "paths" with
  | some v => .ok (some v)
  | none =>
    match pyLookup g "rings" with
    | some v => .ok (some v)
    | none =>
      match pyLookup g "y" with
      | some yv =>
        match pyLookup g "x" with
        | some xv => .ok (some (Json.jarr [xv, yv]))
        | none => .error .keyError
      | none => .ok none

/-- Modelled from the spec: the geometry precedence as the specification
words it — use `paths` if present, else `rings` if present, else the pair
`[x, y]` when BOTH `x` and `y` keys exist, else a null geometry.  Declared
for comparison with the source embedding `get_geometry_json`. -/
def get_geometry_json_spec (g : List (String × Json)) : Option Json :=
  match pyLookup g "paths" with
  | some v => some v
  | none =>
    match pyLookup g "rings" with
    | some v => some v
    | none =>
      match pyLookup g "x", pyLookup g "y" with
      | some xv, some yv => some (Json.jarr [xv, yv])
      | _, _ => none

/-- The esri-JSON dictionary assembled per feature (lines 115-118) and
handed to the external collaborator `arcpy.AsShape`; the resulting shape is
modelled by this content.  `coordinates` is `none` when `get_geometry_json`
fell through with `None`. -/
structure EsriShape where
  shapeType : String
  coordinates : Option Json

/-- One element of the list built by `_get_feature_list` (lines 120-124):
the feature's raw `attributes` sub-object plus the shape. -/
structure FeatureRec where
  attributes : Json
  geometry : EsriShape

/-- Body of the feature loop of `_get_feature_list` (lines 112-124) for one
entry of the response's `features` array.  Python evaluation order of the
dictionary literal on lines 115-118: the `type` value
`geometry_type[rest_dict['geometryType']]` first (subscript, then lookup
table), then `get_geometry_json(feature['geometry'])`, then
`feature['attributes']`.  A non-string `geometryType` is not a key of the
lookup table, hence `KeyError`; membership tests on a non-dictionary
geometry raise `TypeError`. -/
def mkFeature (rest_dict : Json) (feature : Json) : Except PyError FeatureRec :=
  match pyGetItem rest_dict "geometryType" with
  | .error e => .error e
  | .ok (.jstr s) =>
    match geometry_type_fetch s with
    | none => .error .keyError
    | some label =>
      match pyGetItem feature "geometry" with
      | .error e => .error e
      | .ok (.jobj gdict) =>
        match get_geometry_json gdict with
        | .error e => .error e
        | .ok coords =>
          match pyGetItem feature "attributes" with
          | .error e => .error e
          | .ok attrs =>
            .ok { attributes := attrs
                  geometry := { shapeType := label, coordinates := coords } }
      | .ok _ => .error .typeError
  | .ok _ => .error .keyError

/-- Line 76: `','.join([str(fid) for fid in fid_list])`. -/
def fid_string (fid_list : List Int) : String :=
  String.intercalate "," (fid_list.map toString)

/-- `FeatureService._get_feature_list` (lines 69-127): query with the
comma-joined identifiers, `outFields=*`, `f=json`, then map the feature
loop body over the response's `features` array. -/
def _get_feature_list (http : Http) (url : String) (fid_list : List Int) :
    Except PyError (List FeatureRec) :=
  match query http url
      [("objectIds", fid_string fid_list), ("outFields", "*"), ("f", "json")] with
  | .error e => .error e
  | .ok rest_dict =>
    match pyGetItem rest_dict "features" with
    | .error e => .error e
    | .ok (.jarr fs) => exMapM (mkFeature rest_dict) fs
    | .ok _ => .error .typeError

/-- A field object of the service metadata, as consumed by
`_validate_field` and the schema loop: `field['name']`, `field['type']`,
`field['alias']`, `field['length']` (the last two renamed because `alias`
is reserved in Lean and `type` in the source is already not a Lean-legal
field name). -/
structure FieldDesc where
  name : String
  ftype : String
  falias : String
  length : Int
deriving DecidableEq

/-- `FeatureService._validate_field` (lines 129-164): the if/elif chain
rejecting OID, Geometry, `^OBJECTID.*` names, `^Shape\..*` names, Date and
GlobalID fields, in that source order; everything else is valid. -/
def _validate_field (f : FieldDesc) : Bool :=
  if f.ftype = "esriFieldTypeOID" then false
  else if f.ftype = "esriFieldTypeGeometry" then false
  else if reMatchHead "OBJECTID" f.name then false
  else if reMatchHead "Shape." f.name then false
  else if f.ftype = "esriFieldTypeDate" then false
  else if f.ftype = "esriFieldTypeGlobalID" then false
  else true

/-- The `geometry_type` lookup dictionary of `save_to_feature_class`
(lines 172-178): esri geometry type label → arcpy geometry keyword. -/
def geometry_type_save (s : String) : Option String :=
  if s = "esriGeometryPoint" then some "POINT"
  else if s = "esriGeometryMultipoint" then some "MULTIPOINT"
  else if s = "esriGeometryPolyline" then some "POLYLINE"
  else if s = "esriGeometryPolygon" then some "POLYGON"
  else none

/-- Line 184: `geometry_type[self.properties['geometryType']]`, evaluated
while building the `CreateFeatureclass_management` call — before the
dataset is created, so a failure here aborts creation. -/
def save_geometry_type (props : Json) : Except PyError String :=
  match pyGetItem props "geometryType" with
  | .error e => .error e
  | .ok (.jstr s) =>
    match geometry_type_save s with
    | some v => .ok v
    | none => .error .keyError
  | .ok _ => .error .keyError

/-- The `field_type` lookup dictionary of `save_to_feature_class`
(lines 189-197): esri field type → arcpy field type keyword. -/
def field_type_save (s : String) : Option String :=
  if s = "esriFieldTypeString" then some "TEXT"
  else if s = "esriFieldTypeFloat" then some "FLOAT"
  else if s = "esriFieldTypeDouble" then some "DOUBLE"
  else if s = "esriFieldTypeSmallInteger" then some "SHORT"
  else if s = "esriFieldTypeInteger" then some "LONG"
  else if s = "esriFieldTypeDate" then some "DATE"
  else if s = "esriFieldTypeGlobalID" then some "GUID"
  else none

/-- The schema loop of `save_to_feature_class` (lines 199-224): for each
field passing `_validate_field`, the code first indexes
`field_type[field['type']]` (a `KeyError` for an unmapped type aborts the
export) and then appends `field['name']` to `insert_field_list`; the
`AddField_management` call is an external side effect carrying no further
information.  The result is the accumulated `insert_field_list`. -/
def add_fields : List FieldDesc → Except PyError (List String)
  | [] => .ok []
  | f :: rest =>
    if _validate_field f then
      match field_type_save f.ftype with
      | none => .error .keyError
      | some _ =>
        match add_fields rest with
        | .error e => .error e
        | .ok names => .ok (f.name :: names)
    else add_fields rest

/-- Lines 229-232: `batch_size = 100 if maxRecordCount > 100 else
maxRecordCount`. -/
def batch_size (maxRecordCount : Int) : Int :=
  if maxRecordCount > 100 then 100 else maxRecordCount

/-- Python `range(0, stop, step)` for a positive step: the multiples of
`step` below `stop`.  A negative or zero `stop` yields the empty range
(`Int.toNat` clamps at zero). -/
def pyRangeStarts (stop : Int) (step : Nat) : List Nat :=
  (List.range ((stop.toNat + step - 1) / step)).map (fun i => i * step)

/-- Line 238: `[fid_list[i: i + int(batch_size)] for i in
range(0, len(fid_list)-1, int(batch_size))]` — note the exclusive bound
`len(fid_list)-1`.  The slice `fid_list[i : i+b]` is drop-then-take. -/
def fid_batch_list (batchSize : Nat) (fid_list : List Int) : List (List Int) :=
  (pyRangeStarts ((fid_list.length : Int) - 1) batchSize).map
    (fun i => (fid_list.drop i).take batchSize)

/-- One value of a row handed to `insert_cursor.insertRow`: either an
attribute value or the shape (the `SHAPE@` token's slot). -/
inductive RowCell where
  | attrVal (v : Json)
  | geomVal (g : EsriShape)

/-- The row-assembly loop of `save_to_feature_class` (lines 257-269): walk
`insert_field_list`, skip the literal name `SHAPE@`, subscript the
feature's `attributes` for every other name (a missing key raises
`KeyError`, discarding the partially built row), then append the shape
last. -/
def buildRow (insertFields : List String) (feature : FeatureRec) :
    Except PyError (List RowCell) :=
  match exMapM
      (fun n =>
        match pyGetItem feature.attributes n with
        | .error e => .error e
        | .ok v => .ok (RowCell.attrVal v))
      (insertFields.filter (fun n => n != "SHAPE@")) with
  | .error e => .error e
  | .ok cells => .ok (cells ++ [RowCell.geomVal feature.geometry])

/-- The feature loop inside one batch (lines 253-272): insert a row per
feature, stopping at the first failed row; `acc` is the list of rows
already inserted through the cursor (they remain in the dataset when a
later row fails). -/
def insertFeatures (insertFields : List String) :
    List FeatureRec → List (List RowCell) → List (List RowCell) × Option PyError
  | [], acc => (acc, none)
  | f :: rest, acc =>
    match buildRow insertFields f with
    | .ok row => insertFeatures insertFields rest (acc ++ [row])
    | .error e => (acc, some e)

/-- The batch loop of `save_to_feature_class` (lines 244-272): per batch,
fetch the features (`_get_feature_list`, abstracted as the `fetch`
capability) and insert them; any exception stops the loop, leaving the rows
inserted so far. -/
def copyRecords (fetch : List Int → Except PyError (List FeatureRec))
    (insertFields : List String) :
    List (List Int) → List (List RowCell) → List (List RowCell) × Option PyError
  | [], acc => (acc, none)
  | b :: rest, acc =>
    match fetch b with
    | .error e => (acc, some e)
    | .ok feats =>
      match insertFeatures insertFields feats acc with
      | (acc2, some e) => (acc2, some e)
      | (acc2, none) => copyRecords fetch insertFields rest acc2

/-- The rows successfully built for a list of features (those inserted when
no failure interrupts). -/
def okRows (insertFields : List String) (feats : List FeatureRec) :
    List (List RowCell) :=
  feats.filterMap (fun f => exToOption (buildRow insertFields f))

/-- Endpoint answering the metadata call with an empty JSON object: valid
JSON that lacks every key the spec calls required. -/
def httpBare : Http := fun u =>
  if u = "svc?f=json" then .ok (Json.jobj []) else .error .jsonDecodeError

/-- A well-formed metadata response with one field object. -/
def respFull : Json :=
  Json.jobj [("geometryType", Json.jstr "esriGeometryPoint"),
             ("fields", Json.jarr [Json.jobj []]),
             ("maxRecordCount", Json.jnum 1000)]

/-- Endpoint answering the metadata call with `respFull`. -/
def httpFull : Http := fun u =>
  if u = "svc?f=json" then .ok respFull else .error .jsonDecodeError

/-- Endpoint answering the identifier query with three object identifiers. -/
def httpIds : Http := fun u =>
  if u = "svc/query?where=1%3D1&returnIdsOnly=true&f=json" then
    .ok (Json.jobj
      [("objectIds", Json.jarr [Json.jnum 1, Json.jnum 2, Json.jnum 3])])
  else .error .jsonDecodeError

/-- A point feature with a single attribute `a` carrying `k`. -/
def featNum (k : Int) : Json :=
  Json.jobj [("attributes", Json.jobj [("a", Json.jnum k)]),
             ("geometry", Json.jobj [("x", Json.jnum k), ("y", Json.jnum k)])]

/-- Four concrete features, one per requested identifier. -/
def fs4 : List Json := [featNum 101, featNum 102, featNum 103, featNum 104]

/-- A feature-query response holding `fs4` with a recognized geometry
type. -/
def resp4 : Json :=
  Json.jobj [("geometryType", Json.jstr "esriGeometryPoint"),
             ("features", Json.jarr fs4)]

/-- Endpoint answering the feature query for identifiers 101-104 with
`resp4`. -/
def http4 : Http := fun u =>
  if u = "svc/query?objectIds=101,102,103,104&outFields=*&f=json" then .ok resp4
  else .error .jsonDecodeError

/-- A feature-query response with an unrecognized geometry type and ONE
feature. -/
def respEnvNE : Json :=
  Json.jobj [("geometryType", Json.jstr "esriGeometryEnvelope"),
             ("features", Json.jarr [featNum 1])]

/-- Endpoint answering the feature query for identifier 1 with
`respEnvNE`. -/
def httpEnvNE : Http := fun u =>
  if u = "svc/query?objectIds=1&outFields=*&f=json" then .ok respEnvNE
  else .error .jsonDecodeError

/-- A feature-query response with an unrecognized geometry type and an
EMPTY `features` array. -/
def respEnvEmpty : Json :=
  Json.jobj [("geometryType", Json.jstr "esriGeometryEnvelope"),
             ("features", Json.jarr [])]

/-- Endpoint answering the feature query for identifier 1 with
`respEnvEmpty`. -/
def httpEnvEmpty : Http := fun u =>
  if u = "svc/query?objectIds=1&outFields=*&f=json" then .ok respEnvEmpty
  else .error .jsonDecodeError

/-- Service properties whose geometry type is outside the recognized set. -/
def propsEnv : Json := Json.jobj [("geometryType", Json.jstr "esriGeometryEnvelope")]

/-- A concrete shape value reused by the row-assembly checks. -/
def shapePt : EsriShape :=
  { shapeType := "Point", coordinates := some (Json.jarr [Json.jnum 0, Json.jnum 1]) }

/-- A fetched feature carrying the expected attribute key `a`. -/
def featOkRec : FeatureRec :=
  { attributes := Json.jobj [("a", Json.jnum 1)], geometry := shapePt }

/-- A fetched feature whose attributes lack the expected key `a`. -/
def featBadRec : FeatureRec :=
  { attributes := Json.jobj [], geometry := shapePt }

/-- The insert field list for the single valid field `a` plus the geometry
token. -/
def fieldsW : List String := ["a", "SHAPE@"]

/-- A fetch capability: batch `[1]` yields one well-formed feature, batch
`[2]` yields a malformed feature between two well-formed ones, anything
else fails. -/
def fetchW : List Int → Except PyError (List FeatureRec) := fun b =>
  if b = [1] then .ok [featOkRec]
  else if b = [2] then .ok [featOkRec, featBadRec, featOkRec]
  else .error .jsonDecodeError

/-- A plain valid text field. -/
def fldName : FieldDesc :=
  { name := "NAME", ftype := "esriFieldTypeString", falias := "Name", length := 50 }

/-- An object-identifier field (invalid by type and by name). -/
def fldOid : FieldDesc :=
  { name := "OBJECTID", ftype := "esriFieldTypeOID", falias := "OBJECTID", length := 0 }

/-- A text field whose name collides with the reserved geometry token
`SHAPE@` appended to the insert field list. -/
def fldShapeTok : FieldDesc :=
  { name := "SHAPE@", ftype := "esriFieldTypeString", falias := "s", length := 8 }

/-- A fetched feature carrying the attribute key `NAME`. -/
def featName : FeatureRec :=
  { attributes := Json.jobj [("NAME", Json.jstr "v")], geometry := shapePt }

/-- A fetched feature carrying an attribute under the key `SHAPE@`. -/
def featShapeTok : FeatureRec :=
  { attributes := Json.jobj [("SHAPE@", Json.jnum 7)], geometry := shapePt }

/-! ## Helper lemmas -/

/-- When every element succeeds, the fallible loop succeeds and returns the
successful values in order. -/
theorem exMapM_all_ok {α β : Type} (f : α → Except PyError β) (l : List α)
    (h : ∀ a ∈ l, exIsOk (f a) = true) :
    exMapM f l = .ok (l.filterMap (fun a => exToOption (f a))) := by
  induction l with
  | nil => rfl
  | cons a l ih =>
    have ha := h a (List.mem_cons_self a l)
    cases hfa : f a with
    | error e => rw [hfa] at ha; simp [exIsOk] at ha
    | ok b =>
      simp only [exMapM, hfa, ih (fun x hx => h x (List.mem_cons_of_mem a hx)),
        List.filterMap_cons, exToOption]

/-- A `filterMap` whose function succeeds everywhere preserves length. -/
theorem length_filterMap_all_some {α β : Type} (g : α → Option β) (l : List α)
    (h : ∀ a ∈ l, (g a).isSome = true) :
    (l.filterMap g).length = l.length := by
  induction l with
  | nil => rfl
  | cons a l ih =>
    have ha := h a (List.mem_cons_self a l)
    cases hg : g a with
    | none => rw [hg] at ha; simp at ha
    | some b =>
      simp [List.filterMap_cons, hg, ih (fun x hx => h x (List.mem_cons_of_mem a hx))]

/-- A successful computation has a successful value. -/
theorem exToOption_isSome {α : Type} (x : Except PyError α)
    (h : exIsOk x = true) : (exToOption x).isSome = true := by
  cases x with
  | ok a => rfl
  | error e => simp [exIsOk] at h

/-- When every row builds, the per-batch insert loop appends exactly the
built rows and reports no error. -/
theorem insertFeatures_all_ok (insertFields : List String) (feats : List FeatureRec)
    (acc : List (List RowCell))
    (h : ∀ f ∈ feats, exIsOk (buildRow insertFields f) = true) :
    insertFeatures insertFields feats acc = (acc ++ okRows insertFields feats, none) := by
  induction feats generalizing acc with
  | nil => simp [insertFeatures, okRows]
  | cons f rest ih =>
    have hf := h f (List.mem_cons_self f rest)
    cases hb : buildRow insertFields f with
    | error e => rw [hb] at hf; simp [exIsOk] at hf
    | ok row =>
      simp only [insertFeatures, hb]
      rw [ih (acc ++ [row]) (fun x hx => h x (List.mem_cons_of_mem f hx))]
      simp [okRows, List.filterMap_cons, hb, exToOption]

/-- When the rows before `f` build and `f` fails, the per-batch insert loop
stops at `f`: exactly the earlier rows are inserted and the error is
reported. -/
theorem insertFeatures_err (insertFields : List String)
    (fpre : List FeatureRec) (f : FeatureRec) (frest : List FeatureRec)
    (e : PyError) (acc : List (List RowCell))
    (hok : ∀ g ∈ fpre, exIsOk (buildRow insertFields g) = true)
    (herr : buildRow insertFields f = .error e) :
    insertFeatures insertFields (fpre ++ f :: frest) acc =
      (acc ++ okRows insertFields fpre, some e) := by
  induction fpre generalizing acc with
  | nil => simp [insertFeatures, herr, okRows]
  | cons g rest ih =>
    have hg := hok g (List.mem_cons_self g rest)
    cases hb : buildRow insertFields g with
    | error e2 => rw [hb] at hg; simp [exIsOk] at hg
    | ok row =>
      simp only [List.cons_append, insertFeatures, hb, List.append_eq]
      rw [ih (acc ++ [row]) (fun x hx => hok x (List.mem_cons_of_mem g hx))]
      simp [okRows, List.filterMap_cons, hb, exToOption]

/-- The batch loop stops at the first feature whose row fails: the output
is the rows of the fully processed leading batches, plus the rows built
before the failing feature inside its batch; later features and batches
contribute nothing, and the error is reported. -/
theorem copyRecords_prefix_err (fetch : List Int → Except PyError (List FeatureRec))
    (insertFields : List String)
    (bpre : List (List Int)) (bfail : List Int) (bpost : List (List Int))
    (fpre : List FeatureRec) (f : FeatureRec) (frest : List FeatureRec)
    (e : PyError) (acc : List (List RowCell))
    (hpre : ∀ b ∈ bpre, ∃ feats, fetch b = .ok feats ∧
        ∀ g ∈ feats, exIsOk (buildRow insertFields g) = true)
    (hfail : fetch bfail = .ok (fpre ++ f :: frest))
    (hfok : ∀ g ∈ fpre, exIsOk (buildRow insertFields g) = true)
    (herr : buildRow insertFields f = .error e) :
    copyRecords fetch insertFields (bpre ++ bfail :: bpost) acc =
      ((copyRecords fetch insertFields bpre acc).1 ++ okRows insertFields fpre, some e) := by
  induction bpre generalizing acc with
  | nil =>
    simp only [List.nil_append, copyRecords, hfail]
    rw [insertFeatures_err insertFields fpre f frest e acc hfok herr]
  | cons b rest ih =>
    obtain ⟨feats, hfb, hall⟩ := hpre b (List.mem_cons_self b rest)
    simp only [List.cons_append, copyRecords, hfb]
    rw [insertFeatures_all_ok insertFields feats acc hall]
    exact ih (acc ++ okRows insertFields feats) (fun x hx => hpre x (List.mem_cons_of_mem b hx))

/-- The schema loop succeeds when every valid field has a mapped type, and
then the insert field list is the valid fields' names in descriptor
order. -/
theorem add_fields_ok (flds : List FieldDesc)
    (h : ∀ fd ∈ flds, _validate_field fd = true → (field_type_save fd.ftype).isSome = true) :
    add_fields flds = .ok ((flds.filter _validate_field).map FieldDesc.name) := by
  induction flds with
  | nil => rfl
  | cons fd rest ih =>
    have ihr := ih (fun x hx hvx => h x (List.mem_cons_of_mem fd hx) hvx)
    by_cases hv : _validate_field fd = true
    · have hft := h fd (List.mem_cons_self fd rest) hv
      cases hf : field_type_save fd.ftype with
      | none => rw [hf] at hft; simp at hft
      | some t => simp [add_fields, hv, hf, ihr, List.filter_cons]
    · simp [add_fields, hv, ihr, List.filter_cons]

/-- A successful feature of a batch whose top-level geometry type maps to
`label` carries its own `attributes` sub-object verbatim and the shared
label. -/
theorem mkFeature_ok_spec (resp f0 : Json) (gt label : String) (rec : FeatureRec)
    (hgt : pyGetItem resp "geometryType" = .ok (Json.jstr gt))
    (hlabel : geometry_type_fetch gt = some label)
    (hrec : mkFeature resp f0 = .ok rec) :
    pyGetItem f0 "attributes" = .ok rec.attributes ∧
    rec.geometry.shapeType = label := by
  unfold mkFeature at hrec
  rw [hgt] at hrec
  simp only [hlabel] at hrec
  cases hgeom : pyGetItem f0 "geometry" with
  | error e => rw [hgeom] at hrec; cases hrec
  | ok gj =>
    rw [hgeom] at hrec
    cases gj with
    | jobj gdict =>
      dsimp only at hrec
      cases hcoords : get_geometry_json gdict with
      | error e => rw [hcoords] at hrec; exact absurd hrec (by simp)
      | ok coords =>
        rw [hcoords] at hrec
        dsimp only at hrec
        cases hattrs : pyGetItem f0 "attributes" with
        | error e => rw [hattrs] at hrec; cases hrec
        | ok attrs =>
          rw [hattrs] at hrec
          dsimp only at hrec
          cases hrec
          exact ⟨rfl, rfl⟩
    | jnull => exact absurd hrec (by simp)
    | jbool b => exact absurd hrec (by simp)
    | jnum n => exact absurd hrec (by simp)
    | jstr s => exact absurd hrec (by simp)
    | jarr xs => exact absurd hrec (by simp)

/-- Wrapping a lookup result as a row cell commutes with taking the
successful value. -/
theorem exToOption_mapRow (x : Except PyError Json) :
    exToOption (match x with
      | .error e => .error e
      | .ok v => .ok (RowCell.attrVal v)) =
    Option.map RowCell.attrVal (exToOption x) := by
  cases x <;> rfl

/-! ## Claim theorems -/

/-- Claim C1 (code bug, evaluated at the failing input): the source
partitions the identifiers over `range(0, len(fid_list)-1, batch_size)`,
whose exclusive bound `len(fid_list)-1` drops the final identifier whenever
`len(fid_list) ≡ 1 (mod batch_size)`.  At the concrete failing input — a
server advertising `maxRecordCount = 1000` (so the batch size is 100) and a
single identifier `[10]` — the partitioning step produces ZERO batches, so
concatenating the batches yields the empty sequence rather than the full
identifier sequence, refuting the round-trip law the claim states. -/
theorem c1_batching_drops_final_identifier :
    (batch_size 1000).toNat = 100 ∧
    fid_batch_list 100 [10] = [] ∧
    (fid_batch_list 100 [10]).flatten ≠ [10] := by
  refine ⟨rfl, rfl, ?_⟩
  intro h
  rw [show fid_batch_list 100 [10] = [] from rfl] at h
  simp at h

/-- Claim C2 (code bug, evaluated at the failing input): the claim says a
point is produced only when BOTH `x` and `y` keys exist, and that a
geometry with none of the keys yields a null geometry.  The source guard
`'x' and 'y' in d` is evaluated by Python as `'y' in d`, after which
`d['x']` is read; so on the geometry object `{"y": 3}` — no `paths`, no
`rings`, no `x` — the code raises `KeyError` instead of the null geometry
the claimed precedence requires (the spec-modelled precedence
`get_geometry_json_spec` returns the null geometry there). -/
theorem c2_geometry_y_without_x_key_error :
    get_geometry_json [("y", Json.jnum 3)] = .error PyError.keyError ∧
    get_geometry_json_spec [("y", Json.jnum 3)] = none := ⟨rfl, rfl⟩

/-- Claim C3 (confirmed): `_validate_field` returns `false` exactly when
the field's type is OID, Geometry, Date or GlobalID, or the field's name
matches `^OBJECTID.*` or `^Shape\..*` (anchored prefix match); every other
field is valid. -/
theorem c3_validate_field_iff (f : FieldDesc) :
    _validate_field f = false ↔
      (f.ftype = "esriFieldTypeOID" ∨ f.ftype = "esriFieldTypeGeometry" ∨
       f.ftype = "esriFieldTypeDate" ∨ f.ftype = "esriFieldTypeGlobalID" ∨
       reMatchHead "OBJECTID" f.name = true ∨ reMatchHead "Shape." f.name = true) := by
  unfold _validate_field
  split_ifs with h1 h2 h3 h4 h5 h6 <;> simp_all

/-- Claim C4, counterexample: the claim asserts the batch size is ALWAYS at
least 1, but the code places no lower bound on the server-reported
`maxRecordCount`; a descriptor advertising `maxRecordCount = 0` yields
batch size 0. -/
theorem c4_counterexample_zero_max_record_count :
    batch_size 0 = min 0 100 ∧ ¬ (1 ≤ batch_size 0) := by
  refine ⟨rfl, ?_⟩
  intro h
  norm_num [batch_size] at h

/-- Claim C4 (amended): for every service descriptor the batch size equals
`min(maxRecordCount, 100)`, and it is at least 1 whenever the server
reports `maxRecordCount ≥ 1` (the unconditional lower bound of the
original claim fails at `maxRecordCount = 0`). -/
theorem c4_batch_size_min_amended (m : Int) :
    batch_size m = min m 100 ∧ (1 ≤ m → 1 ≤ batch_size m) := by
  unfold batch_size
  split_ifs with h <;> refine ⟨?_, fun hm => ?_⟩ <;> omega

/-- Witness for C4 at `maxRecordCount = 1000`. -/
theorem c4_batch_size_min_amended_witness :
    batch_size 1000 = min 1000 100 ∧ 1 ≤ batch_size 1000 :=
  ⟨(c4_batch_size_min_amended 1000).1, (c4_batch_size_min_amended 1000).2 (by decide)⟩

/-- Claim C5, counterexample: the claim asserts `describe()` fails whenever
the response lacks a required key, but `_describe` performs no validation —
on the endpoint `httpBare`, whose metadata response is the empty JSON
object (valid JSON lacking `geometryType`, `fields` and `maxRecordCount`
alike), `_describe` succeeds and returns that object unchanged. -/
theorem c5_counterexample_missing_keys_no_error :
    _describe httpBare "svc" = .ok (Json.jobj []) ∧
    pyGetItem (Json.jobj []) "geometryType" = .error PyError.keyError ∧
    pyGetItem (Json.jobj []) "fields" = .error PyError.keyError ∧
    pyGetItem (Json.jobj []) "maxRecordCount" = .error PyError.keyError :=
  ⟨rfl, rfl, rfl, rfl⟩

/-- Claim C5 (amended): `describe()` issues exactly the metadata query
`f=json` (no other parameters) against the base endpoint URL and returns
whatever the fetch-and-parse capability yields: it fails exactly when the
fetch or JSON parse fails, it performs no required-key validation, and on
success the descriptor IS the raw response, so its `fields` list is the
raw response's `fields` list (in particular of equal length). -/
theorem c5_describe_amended (http : Http) (url : String) :
    _describe http url = http (url ++ "?" ++ "f=json") ∧
    (∀ e, http (url ++ "?" ++ "f=json") = .error e → _describe http url = .error e) ∧
    (∀ props flds, http (url ++ "?" ++ "f=json") = .ok props →
      pyGetItem props "fields" = .ok (Json.jarr flds) →
      ∃ d, _describe http url = .ok d ∧ pyGetItem d "fields" = .ok (Json.jarr flds)) :=
  ⟨rfl, fun _ he => he, fun props _ hp hf => ⟨props, hp, hf⟩⟩

/-- Witness for C5 on a well-formed metadata response with one field
object. -/
theorem c5_describe_amended_witness :
    ∃ d, _describe httpFull "svc" = .ok d ∧
      pyGetItem d "fields" = .ok (Json.jarr [Json.jobj []]) := by
  obtain ⟨-, -, h3⟩ := c5_describe_amended httpFull "svc"
  exact h3 respFull [Json.jobj []] rfl rfl

/-- Claim C6 (confirmed): during record copying, a fetched feature whose
attributes lack an expected schema key stops the export at that feature:
the reported outcome is the mapping error (the `KeyError` the spec's
taxonomy labels `RecordMappingError`), the inserted rows are exactly those
of the fully processed leading batches plus the rows built before the
failing feature — no partial-row skipping — and no later feature or batch
contributes anything. -/
theorem c6_missing_attribute_aborts_export
    (fetch : List Int → Except PyError (List FeatureRec)) (insertFields : List String)
    (bpre : List (List Int)) (bfail : List Int) (bpost : List (List Int))
    (fpre : List FeatureRec) (f : FeatureRec) (frest : List FeatureRec) (e : PyError)
    (hpre : ∀ b ∈ bpre, ∃ feats, fetch b = .ok feats ∧
        ∀ g ∈ feats, exIsOk (buildRow insertFields g) = true)
    (hfail : fetch bfail = .ok (fpre ++ f :: frest))
    (hfok : ∀ g ∈ fpre, exIsOk (buildRow insertFields g) = true)
    (herr : buildRow insertFields f = .error e) :
    copyRecords fetch insertFields (bpre ++ bfail :: bpost) [] =
      ((copyRecords fetch insertFields bpre []).1 ++ okRows insertFields fpre, some e) :=
  copyRecords_prefix_err fetch insertFields bpre bfail bpost fpre f frest e [] hpre hfail hfok herr

/-- Witness for C6: three batches, the middle one holding a malformed
feature between two well-formed ones; exactly two rows are inserted (the
leading batch's row and the one before the failure) and the export reports
the mapping error. -/
theorem c6_missing_attribute_aborts_export_witness :
    copyRecords fetchW fieldsW [[1], [2], [3]] [] =
      ([[RowCell.attrVal (Json.jnum 1), RowCell.geomVal shapePt],
        [RowCell.attrVal (Json.jnum 1), RowCell.geomVal shapePt]], some PyError.keyError) := by
  have h := c6_missing_attribute_aborts_export fetchW fieldsW [[1]] [2] [[3]]
      [featOkRec] featBadRec [featOkRec] PyError.keyError
      (by intro b hb
          simp only [List.mem_singleton] at hb
          subst hb
          exact ⟨[featOkRec], rfl, by
            intro g hg
            simp only [List.mem_singleton] at hg
            subst hg
            rfl⟩)
      rfl
      (by intro g hg
          simp only [List.mem_singleton] at hg
          subst hg
          rfl)
      rfl
  exact h.trans (by rfl)

/-- Claim C7, counterexample: a field literally named `SHAPE@` passes
`_validate_field` (its name matches neither `^OBJECTID.*` nor `^Shape\..*`
and its type is valid), so it enters the insert field list; but the copy
loop skips every occurrence of the literal name `SHAPE@`, so the inserted
row omits that field's attribute value, refuting the claim that every row
consists of the attribute values of ALL valid field names in order
followed by the geometry. -/
theorem c7_counterexample_shape_token_field :
    _validate_field fldShapeTok = true ∧
    add_fields [fldShapeTok] = .ok ["SHAPE@"] ∧
    buildRow (["SHAPE@"] ++ ["SHAPE@"]) featShapeTok = .ok [RowCell.geomVal shapePt] ∧
    (Except.ok [RowCell.geomVal shapePt] : Except PyError (List RowCell)) ≠
      .ok [RowCell.attrVal (Json.jnum 7), RowCell.geomVal shapePt] := by
  refine ⟨rfl, rfl, rfl, ?_⟩
  intro h
  injection h with h2
  exact absurd (congrArg List.length h2) (by decide)

/-- Claim C7 (amended): provided no valid field is named `SHAPE@` (the
reserved geometry token the code appends to the field list), the ordered
list of valid field names (descriptor order) defines both the output
schema order and the copy order: every built row is the attribute values
for those names in that exact order followed by the geometry value last. -/
theorem c7_row_order_amended (flds : List FieldDesc) (feature : FeatureRec)
    (hmapped : ∀ fd ∈ flds, _validate_field fd = true →
      (field_type_save fd.ftype).isSome = true)
    (hns : ∀ fd ∈ flds, _validate_field fd = true → fd.name ≠ "SHAPE@")
    (hattrs : ∀ fd ∈ flds, _validate_field fd = true →
      exIsOk (pyGetItem feature.attributes fd.name) = true) :
    ∃ names, add_fields flds = .ok names ∧
      names = (flds.filter _validate_field).map FieldDesc.name ∧
      buildRow (names ++ ["SHAPE@"]) feature =
        .ok ((names.filterMap fun n =>
            Option.map RowCell.attrVal (exToOption (pyGetItem feature.attributes n))) ++
          [RowCell.geomVal feature.geometry]) := by
  refine ⟨_, add_fields_ok flds hmapped, rfl, ?_⟩
  set names := (flds.filter _validate_field).map FieldDesc.name with hnames
  have hmem : ∀ n ∈ names, n ≠ "SHAPE@" := by
    intro n hn
    rw [hnames] at hn
    simp only [List.mem_map, List.mem_filter] at hn
    obtain ⟨fd, ⟨hfd, hval⟩, rfl⟩ := hn
    exact hns fd hfd hval
  have hfilter : (names ++ ["SHAPE@"]).filter (fun n => n != "SHAPE@") = names := by
    rw [List.filter_append]
    have hl : names.filter (fun n => n != "SHAPE@") = names :=
      List.filter_eq_self.mpr (fun a ha => by simpa using hmem a ha)
    have hr : (["SHAPE@"] : List String).filter (fun n => n != "SHAPE@") = [] := rfl
    rw [hl, hr, List.append_nil]
  unfold buildRow
  rw [hfilter]
  have hall : ∀ n ∈ names,
      exIsOk (match pyGetItem feature.attributes n with
        | .error e => (.error e : Except PyError RowCell)
        | .ok v => .ok (RowCell.attrVal v)) = true := by
    intro n hn
    rw [hnames] at hn
    simp only [List.mem_map, List.mem_filter] at hn
    obtain ⟨fd, ⟨hfd, hval⟩, rfl⟩ := hn
    have hx := hattrs fd hfd hval
    cases h : pyGetItem feature.attributes fd.name with
    | ok v => rfl
    | error e => rw [h] at hx; simp [exIsOk] at hx
  rw [exMapM_all_ok _ names hall]
  simp only [exToOption_mapRow]

/-- Witness for C7: a descriptor with an invalid OID field and one valid
text field `NAME`; the built row is that field's attribute value followed
by the geometry. -/
theorem c7_row_order_amended_witness :
    ∃ names, add_fields [fldOid, fldName] = .ok names ∧
      names = ["NAME"] ∧
      buildRow (names ++ ["SHAPE@"]) featName =
        .ok [RowCell.attrVal (Json.jstr "v"), RowCell.geomVal shapePt] := by
  obtain ⟨names, h1, h2, h3⟩ := c7_row_order_amended [fldOid, fldName] featName
    (by intro fd hfd hv
        simp only [List.mem_cons, List.not_mem_nil, or_false] at hfd
        rcases hfd with rfl | rfl
        · exact absurd hv (by decide)
        · rfl)
    (by intro fd hfd hv
        simp only [List.mem_cons, List.not_mem_nil, or_false] at hfd
        rcases hfd with rfl | rfl
        · exact absurd hv (by decide)
        · exact (by decide : fldName.name ≠ "SHAPE@"))
    (by intro fd hfd hv
        simp only [List.mem_cons, List.not_mem_nil, or_false] at hfd
        rcases hfd with rfl | rfl
        · exact absurd hv (by decide)
        · rfl)
  have h2b : names = ["NAME"] := h2.trans rfl
  subst h2b
  exact ⟨["NAME"], h1, rfl, h3.trans rfl⟩

/-- Claim C8 (confirmed): `get_fid_list` queries with exactly the
parameters `where=1%3D1` (the URL-encoded form of the filter `1=1`),
`returnIdsOnly=true` and `f=json`, returns precisely the response's
`objectIds` value — an array is returned as-is, in order — and returns
the empty sequence without error when the server reports no
identifiers. -/
theorem c8_get_fid_list_spec (http : Http) (url : String)
    (kvs : List (String × Json)) (v : Json)
    (hresp : http (url ++ "/query" ++ "?" ++ "where=1%3D1&returnIdsOnly=true&f=json") =
      .ok (Json.jobj kvs))
    (hids : pyLookup kvs "objectIds" = some v) :
    get_fid_list http url = .ok v ∧
    percentDecode "1%3D1" = "1=1" ∧
    (v = Json.jarr [] → get_fid_list http url = .ok (Json.jarr [])) := by
  have hq : query http url [("where", "1%3D1"), ("returnIdsOnly", "true"), ("f", "json")] =
      .ok (Json.jobj kvs) := hresp
  have h1 : get_fid_list http url = .ok v := by
    unfold get_fid_list
    rw [hq]
    dsimp only
    simp [pyGetItem, hids]
  exact ⟨h1, rfl, fun hv => hv ▸ h1⟩

/-- Witness for C8 on an endpoint reporting three identifiers. -/
theorem c8_get_fid_list_spec_witness :
    get_fid_list httpIds "svc" =
      .ok (Json.jarr [Json.jnum 1, Json.jnum 2, Json.jnum 3]) ∧
    percentDecode "1%3D1" = "1=1" := by
  have h := c8_get_fid_list_spec httpIds "svc"
      [("objectIds", Json.jarr [Json.jnum 1, Json.jnum 2, Json.jnum 3])]
      (Json.jarr [Json.jnum 1, Json.jnum 2, Json.jnum 3]) rfl rfl
  exact ⟨h.1, h.2.1⟩

/-- Claim C9 (confirmed): `_get_feature_list` queries with the comma-joined
identifiers, `outFields=*` and `f=json`, and when the response's geometry
type is recognized and every feature decodes, it returns exactly one record
per entry of the response's `features` array (so exactly 4 records for a
4-feature response), each record's `attributes` copied verbatim from its
feature, and every record's geometry type label equal to the single label
derived from the response's top-level `geometryType` — not from any
per-feature data. -/
theorem c9_fetch_features_spec (http : Http) (url : String) (ids : List Int)
    (resp : Json) (fs : List Json) (gt label : String)
    (hresp : query http url
      [("objectIds", fid_string ids), ("outFields", "*"), ("f", "json")] = .ok resp)
    (hfs : pyGetItem resp "features" = .ok (Json.jarr fs))
    (hgt : pyGetItem resp "geometryType" = .ok (Json.jstr gt))
    (hlabel : geometry_type_fetch gt = some label)
    (hok : ∀ f0 ∈ fs, exIsOk (mkFeature resp f0) = true) :
    ∃ recs, _get_feature_list http url ids = .ok recs ∧
      recs = fs.filterMap (fun f0 => exToOption (mkFeature resp f0)) ∧
      recs.length = fs.length ∧
      ∀ f0 ∈ fs, ∀ rec, mkFeature resp f0 = .ok rec →
        pyGetItem f0 "attributes" = .ok rec.attributes ∧
        rec.geometry.shapeType = label := by
  refine ⟨fs.filterMap (fun f0 => exToOption (mkFeature resp f0)), ?_, rfl, ?_, ?_⟩
  · unfold _get_feature_list
    rw [hresp]
    dsimp only
    rw [hfs]
    dsimp only
    exact exMapM_all_ok _ fs hok
  · exact length_filterMap_all_some _ fs (fun a ha => exToOption_isSome _ (hok a ha))
  · intro f0 _ rec hrec
    exact mkFeature_ok_spec resp f0 gt label rec hgt hlabel hrec

/-- Witness for C9: a 4-feature point response for identifiers 101-104
yields exactly 4 records. -/
theorem c9_fetch_features_spec_witness :
    ∃ recs, _get_feature_list http4 "svc" [101, 102, 103, 104] = .ok recs ∧
      recs.length = 4 := by
  obtain ⟨recs, h1, -, h3, -⟩ :=
    c9_fetch_features_spec http4 "svc" [101, 102, 103, 104] resp4 fs4
      "esriGeometryPoint" "Point" rfl rfl rfl rfl
      (by intro f0 hf
          simp only [fs4, List.mem_cons, List.not_mem_nil, or_false] at hf
          rcases hf with rfl | rfl | rfl | rfl <;> rfl)
  exact ⟨recs, h1, h3.trans rfl⟩

/-- Claim C10, counterexample: the claim asserts the fetch FAILS at the
geometry-type lookup for every response with an unrecognized top-level
`geometryType`, but when the `features` array is empty the loop body never
runs, the lookup is never consulted, and the fetch returns the empty
record list successfully. -/
theorem c10_counterexample_empty_features :
    geometry_type_fetch "esriGeometryEnvelope" = none ∧
    _get_feature_list httpEnvEmpty "svc" [1] = .ok [] ∧
    (Except.ok ([] : List FeatureRec) ≠
      (.error PyError.keyError : Except PyError (List FeatureRec))) := by
  refine ⟨rfl, rfl, ?_⟩
  intro h
  cases h

/-- Claim C10 (amended): for a feature-query response whose top-level
`geometryType` is outside the four recognized values, `_get_feature_list`
fails at the geometry-type lookup before producing any record whenever the
`features` array is nonempty, and returns the empty record list without
consulting the lookup when the array is empty — so it never yields a
record with a missing geometry type; and dataset creation always fails at
its own geometry-type lookup when the descriptor's geometry type is
outside the recognized set. -/
theorem c10_unknown_geometry_type_amended
    (http : Http) (url : String) (ids : List Int) (resp : Json) (fs : List Json)
    (g : String) (props : Json) (g2 : String)
    (hresp : query http url
      [("objectIds", fid_string ids), ("outFields", "*"), ("f", "json")] = .ok resp)
    (hfs : pyGetItem resp "features" = .ok (Json.jarr fs))
    (hgt : pyGetItem resp "geometryType" = .ok (Json.jstr g))
    (hbad : geometry_type_fetch g = none)
    (hprops : pyGetItem props "geometryType" = .ok (Json.jstr g2))
    (hbad2 : geometry_type_save g2 = none) :
    (fs ≠ [] → _get_feature_list http url ids = .error PyError.keyError) ∧
    (fs = [] → _get_feature_list http url ids = .ok []) ∧
    save_geometry_type props = .error PyError.keyError := by
  have hmk : ∀ f0, mkFeature resp f0 = .error PyError.keyError := by
    intro f0
    unfold mkFeature
    rw [hgt]
    dsimp only
    rw [hbad]
  have hlist : _get_feature_list http url ids = exMapM (mkFeature resp) fs := by
    unfold _get_feature_list
    rw [hresp]
    dsimp only
    rw [hfs]
  refine ⟨?_, ?_, ?_⟩
  · intro hne
    obtain ⟨f0, rest, rfl⟩ := List.exists_cons_of_ne_nil hne
    rw [hlist]
    simp only [exMapM, hmk f0]
  · intro h0
    subst h0
    rw [hlist]
    rfl
  · unfold save_geometry_type
    rw [hprops]
    dsimp only
    rw [hbad2]

/-- Witness for C10: a nonempty unrecognized-type response fails with
`KeyError`, the empty one succeeds with no records, and dataset creation
fails on the unrecognized descriptor. -/
theorem c10_unknown_geometry_type_amended_witness :
    _get_feature_list httpEnvNE "svc" [1] = .error PyError.keyError ∧
    _get_feature_list httpEnvEmpty "svc" [1] = .ok [] ∧
    save_geometry_type propsEnv = .error PyError.keyError := by
  have h1 := c10_unknown_geometry_type_amended httpEnvNE "svc" [1] respEnvNE [featNum 1]
      "esriGeometryEnvelope" propsEnv "esriGeometryEnvelope" rfl rfl rfl rfl rfl rfl
  have h2 := c10_unknown_geometry_type_amended httpEnvEmpty "svc" [1] respEnvEmpty []
      "esriGeometryEnvelope" propsEnv "esriGeometryEnvelope" rfl rfl rfl rfl rfl rfl
  exact ⟨h1.1 (by simp), h2.2.1 rfl, h1.2.2⟩
